import Mathlib

/-!
Verification development for the aio_insight async REST client core
(src/aio_insight/aio_api_client.py): the token-bucket rate limiter, the
TTL-based GET response cache, and the request/error-classification layer.

Pure shallow embedding: time is modelled by rationals passed explicitly
(time.monotonic readings become `now` / `elapsed` parameters), the httpx
transport is abstracted by passing the response the wire would return,
and raised exceptions become `Except` errors.
-/

/-- JSON values, the shape of `response.json()` results and request bodies. -/
inductive JVal where
  | null : JVal
  | bool : Bool → JVal
  | num : Int → JVal
  | str : String → JVal
  | arr : List JVal → JVal
  | obj : List (String × JVal) → JVal

/-- Errors raised by the client: `HTTPError(msg)` instances, and the bare
status-code error raised by `response.raise_for_status()` in the JSON-parse
fallback. -/
inductive ApiError where
  | httpError : String → ApiError
  | statusError : Nat → ApiError
deriving DecidableEq

/-- The value a client operation returns to its caller: parsed JSON, raw
text (soft parse failure on GET), raw bytes (`not_json_response`), the raw
transport response (advanced mode), or Python `None`. -/
inductive RValue where
  | json : JVal → RValue
  | text : String → RValue
  | bytes : String → RValue
  | raw : Nat → String → Option String → Option JVal → String → RValue
  | null : RValue

/-- An httpx response as the client observes it: status code, Content-Type
header, decoded text, the outcome of `response.json()` (`none` models a
parse failure raising `ValueError`), and `response.content`. -/
structure HResponse where
  status : Nat
  contentType : Option String
  text : String
  jsonBody : Option JVal
  content : String

/-- The raw-response value corresponding to returning `response` itself. -/
def HResponse.asRaw (r : HResponse) : RValue :=
  .raw r.status r.text r.contentType r.jsonBody r.content

/-! ## RateLimiter (aio_api_client.py lines 16-37)

`time.monotonic()` differences become the explicit `elapsed` parameter of
`get_token`; the `asyncio.sleep` duration is returned as the second
component (`0` on the non-suspending branch). -/

/-- Token-bucket state: `tokens`, `capacity`, refill `interval`.
`last_check` is implicit in the `elapsed` parameter of `get_token`. -/
structure RateLimiter where
  tokens : ℚ
  capacity : ℚ
  interval : ℚ

/-- `RateLimiter.__init__(tokens, interval)`: capacity starts equal to the
initial token count. -/
def RateLimiter.make (tokens interval : ℚ) : RateLimiter :=
  ⟨tokens, tokens, interval⟩

/-- `RateLimiter.get_token` (lines 23-37): refill by
`elapsed * capacity / interval`, clamp to capacity, then either sleep for
the deficit-proportional time and debit one token, or debit immediately.
Returns the new state and the sleep duration (`0` when not suspending). -/
def RateLimiter.get_token (rl : RateLimiter) (elapsed : ℚ) : RateLimiter × ℚ :=
  let t := min (rl.tokens + elapsed * (rl.capacity / rl.interval)) rl.capacity
  if t < 1 then
    ({ rl with tokens := t - 1 }, (1 - t) * (rl.interval / rl.capacity))
  else
    ({ rl with tokens := t - 1 }, 0)

/-! ## The GET response cache (aio_api_client.py lines 83-85, 268-276, 302)

`self.cache` is a dict keyed by `(path, frozenset(params.items()) if params
else None)`; values are `(json_response, time.monotonic())` pairs. -/

/-- A cache key: the request path paired with the frozenset of params items,
or `none` when `params` is falsy (absent or empty). -/
abbrev CacheKey := String × Option (Finset (String × String))

/-- The cache dict, as an association list from keys to
`(payload, stored_at)` pairs. -/
abbrev Cache := List (CacheKey × (JVal × ℚ))

/-- Line 269: `cache_key = (path, frozenset(params.items()) if params else None)`.
An absent or empty params dict is falsy, so both map to `none`. -/
def cacheKeyOf (path : String) (params : Option (List (String × String))) : CacheKey :=
  (path,
    match params with
    | none => none
    | some l => if l = [] then none else some l.toFinset)

/-- Dict membership + indexing: the entry stored for a key, if any. -/
def cacheFind (c : Cache) (k : CacheKey) : Option (JVal × ℚ) :=
  match c with
  | [] => none
  | (k', vt) :: rest => if k' = k then some vt else cacheFind rest k

/-- Lines 272-276: the read-check.  A stored entry is a hit iff
`now - timestamp < expiry`; an expired entry is ignored (not removed). -/
def cacheLookup (c : Cache) (k : CacheKey) (now expiry : ℚ) : Option JVal :=
  match cacheFind c k with
  | some (v, ts) => if now - ts < expiry then some v else none
  | none => none

/-- Line 302: `self.cache[cache_key] = (json_response, time.monotonic())` —
dict assignment overwrites any previous entry for the key. -/
def cacheStore (c : Cache) (k : CacheKey) (v : JVal) (now : ℚ) : Cache :=
  (k, (v, now)) :: c.filter (fun e => e.1 ≠ k)

/-! ## Lock discipline of cache accesses (lines 85, 120-124, 268-306)

The client creates `self.cache_lock = asyncio.Lock()` "for concurrency
control".  We record, for each primitive cache access the source performs,
whether it occurs inside an `async with self.cache_lock` block. -/

/-- The kinds of primitive accesses to `self.cache`. -/
inductive CacheAccessKind where
  | read : CacheAccessKind
  | write : CacheAccessKind
  | clearAll : CacheAccessKind
deriving DecidableEq

/-- One cache access with its guarding status. -/
structure CacheAccess where
  kind : CacheAccessKind
  underLock : Bool
deriving DecidableEq

/-- `AsyncAtlasRestAPI.get`: the membership/read check at lines 272-276 and
the write at line 302.  Neither is inside an `async with self.cache_lock`
block, and the two are separated by the awaited network request. -/
def getCacheAccesses : List CacheAccess :=
  [⟨.read, false⟩, ⟨.write, false⟩]

/-- `AsyncAtlasRestAPI.close` (lines 120-124): `self.cache.clear()` inside
`async with self.cache_lock`. -/
def closeCacheAccesses : List CacheAccess :=
  [⟨.clearAll, true⟩]

/-! ## Error classification: raise_for_status (lines 164-186)

Python exceptions inside the `try` block (non-dict bodies, non-list
`errorMessages`, non-string join elements) fall to the `except` branch,
which calls `response.raise_for_status()`; for a status in [400, 600) that
raises the bare status-code error.  The helpers below return `none`
exactly where the Python expression would raise. -/

/-- `j.get(key, default)` over the fields of a JSON object. -/
def dictGet (fields : List (String × JVal)) (key : String) : Option JVal :=
  (fields.find? (fun kv => kv.1 = key)).map (fun kv => kv.2)

/-- All elements of the list as strings, or `none` if one is not a string
(Python: `"\n".join(...)` raises TypeError on a non-str element). -/
def strListOf : List JVal → Option (List String)
  | [] => some []
  | .str s :: rest => (strListOf rest).map (fun l => s :: l)
  | _ :: _ => none

/-- `sep.join(x)`: joins a list of strings; a plain string is joined
character by character; anything else raises (`none`). -/
def pyJoin (sep : String) : JVal → Option String
  | .arr xs => (strListOf xs).map (String.intercalate sep)
  | .str s => some (String.intercalate sep (s.data.map (fun c => String.mk [c])))
  | _ => none

/-- Line 179 comprehension element:
`v.get("message", "") if isinstance(v, dict) else v`. -/
def pyGetMessage : JVal → JVal
  | .obj vf => (dictGet vf "message").getD (.str "")
  | v => v

/-- Lines 172: the token-issuing host branch,
`"\n".join([k + ": " + v for k, v in j.items()])`; raises (`none`) if `j`
is not a dict or a value is not a string. -/
def atlassianErrorMsg : JVal → Option String
  | .obj fields =>
    (fields.mapM (fun (kv : String × JVal) =>
      match kv.2 with
      | .str s => some (kv.1 ++ ": " ++ s)
      | _ => none)).map (String.intercalate "\n")
  | _ => none

/-- Lines 174-180: the general branch.  `errorMessages` defaults to `[]`,
`errors` to `{}`; a dict `errors` appends its `"message"` (default `""`),
a list `errors` extends with per-element messages, anything else is
ignored; the result is joined with newlines.  `none` models a raised
exception (non-dict `j`, `.append`/`.extend` on a non-list, join failure). -/
def generalErrorMsg : JVal → Option String
  | .obj fields =>
    let em := (dictGet fields "errorMessages").getD (.arr [])
    let errors := (dictGet fields "errors").getD (.obj [])
    match errors with
    | .obj efields =>
      match em with
      | .arr xs => pyJoin "\n" (.arr (xs ++ [(dictGet efields "message").getD (.str "")]))
      | _ => none
    | .arr vs =>
      match em with
      | .arr xs => pyJoin "\n" (.arr (xs ++ vs.map pyGetMessage))
      | _ => none
    | _ => pyJoin "\n" em
  | _ => none

/-- Lines 168-186: the application-error branch for a status in [400, 600):
parse the body, extract a message with the host-dependent rule, and raise
`HTTPError(error_msg)`; on any parse/extraction failure fall back to the
bare status-code error from `response.raise_for_status()`. -/
def application_error (baseUrl : String) (r : HResponse) : ApiError :=
  match r.jsonBody with
  | none => .statusError r.status
  | some j =>
    match (if baseUrl = "https://api.atlassian.com" then atlassianErrorMsg j
           else generalErrorMsg j) with
    | some msg => .httpError msg
    | none => .statusError r.status

/-- `AsyncAtlasRestAPI.raise_for_status` (lines 164-186): a 401 whose
Content-Type is not `application/json;charset=UTF-8` raises
`HTTPError("Unauthorized (401)")`; otherwise any status in [400, 600)
raises the application error; anything else passes. -/
def raise_for_status (baseUrl : String) (r : HResponse) : Except ApiError Unit :=
  if r.status = 401 ∧ r.contentType ≠ some "application/json;charset=UTF-8" then
    .error (.httpError "Unauthorized (401)")
  else if 400 ≤ r.status ∧ r.status < 600 then
    .error (application_error baseUrl r)
  else
    .ok ()

/-! ## Client state and operations (lines 40-410)

The fields of `AsyncAtlasRestAPI` the cached/classified paths read:
`self.url`, `self.advanced_mode`, `self.cache_expiry_time` (300) and
`self.cache`.  The transport is abstracted: each operation receives the
response the wire would produce. -/

/-- The client-state fields relevant to caching and classification. -/
structure ClientState where
  url : String
  advancedMode : Bool
  cacheExpiry : ℚ
  cache : Cache

/-- Constructor defaults (lines 77, 83-84): given base url and
advanced-mode flag, the cache starts empty with a 300-second expiry. -/
def ClientState.make (url : String) (advancedMode : Bool) : ClientState :=
  ⟨url, advancedMode, 300, []⟩

/-- The same client with a different cache content. -/
def ClientState.withCache (st : ClientState) (c : Cache) : ClientState :=
  { st with cache := c }

/-- `AsyncAtlasRestAPI.request` (lines 188-253) after the transport call:
in advanced mode (client default or per-call) the raw response is returned
without status interpretation; otherwise `raise_for_status` may raise. -/
def requestOutcome (st : ClientState) (advanced : Bool) (resp : HResponse) :
    Except ApiError HResponse :=
  if st.advancedMode || advanced then .ok resp
  else
    match raise_for_status st.url resp with
    | .error e => .error e
    | .ok _ => .ok resp

/-- The outcome of one client operation: the returned value (or raised
error), the post-call client state, and whether the network was used. -/
structure OpOut where
  result : Except ApiError RValue
  state : ClientState
  networkUsed : Bool

/-- The arguments of `AsyncAtlasRestAPI.get` (lines 255-267).  `data`,
`flags`, `headers`, `trailing` and `absolute` shape only the outgoing wire
request (abstracted into the response parameter); they are carried to show
which arguments the cache key construction reads. -/
structure GetArgs where
  path : String
  data : Option JVal
  flags : Option (List String)
  params : Option (List (String × String))
  headers : Option (List (String × String))
  not_json_response : Bool
  trailing : Bool
  absolute : Bool
  advanced_mode : Bool
  use_cache : Bool

namespace AsyncAtlasRestAPI

/-- `AsyncAtlasRestAPI.get` (lines 255-306): build the cache key from path
and params; with `use_cache`, return a stored unexpired entry without any
network call; otherwise request, then return raw (advanced), bytes
(`not_json_response`), `None` (empty text), parsed JSON (cached when
`use_cache`), or the raw text when JSON parsing fails. -/
def get (st : ClientState) (a : GetArgs) (now : ℚ) (resp : HResponse) : OpOut :=
  let key := cacheKeyOf a.path a.params
  match (if a.use_cache then cacheLookup st.cache key now st.cacheExpiry else none) with
  | some v => ⟨.ok (.json v), st, false⟩
  | none =>
    match requestOutcome st a.advanced_mode resp with
    | .error e => ⟨.error e, st, true⟩
    | .ok r =>
      if st.advancedMode || a.advanced_mode then ⟨.ok r.asRaw, st, true⟩
      else if a.not_json_response then ⟨.ok (.bytes r.content), st, true⟩
      else if r.text = "" then ⟨.ok .null, st, true⟩
      else
        match r.jsonBody with
        | some j =>
          ⟨.ok (.json j),
            if a.use_cache then { st with cache := cacheStore st.cache key j now } else st,
            true⟩
        | none => ⟨.ok (.text r.text), st, true⟩

/-- `AsyncAtlasRestAPI._response_handler` (lines 129-138): `response.json()`
on success, `None` on any parse failure. -/
def response_handler (r : HResponse) : RValue :=
  match r.jsonBody with
  | some v => .json v
  | none => .null

/-- `AsyncAtlasRestAPI.post` (lines 308-334): request, then raw response in
advanced mode, else the response handler.  `path` and `params` shape only
the wire request. -/
def post (st : ClientState) (path : String) (params : Option (List (String × String)))
    (advanced : Bool) (resp : HResponse) : OpOut :=
  match requestOutcome st advanced resp with
  | .error e => ⟨.error e, st, true⟩
  | .ok r =>
    if st.advancedMode || advanced then ⟨.ok r.asRaw, st, true⟩
    else ⟨.ok (response_handler r), st, true⟩

/-- `AsyncAtlasRestAPI.put` (lines 336-360): same post-transport logic. -/
def put (st : ClientState) (path : String) (params : Option (List (String × String)))
    (advanced : Bool) (resp : HResponse) : OpOut :=
  match requestOutcome st advanced resp with
  | .error e => ⟨.error e, st, true⟩
  | .ok r =>
    if st.advancedMode || advanced then ⟨.ok r.asRaw, st, true⟩
    else ⟨.ok (response_handler r), st, true⟩

/-- `AsyncAtlasRestAPI.patch` (lines 362-386): same post-transport logic. -/
def patch (st : ClientState) (path : String) (params : Option (List (String × String)))
    (advanced : Bool) (resp : HResponse) : OpOut :=
  match requestOutcome st advanced resp with
  | .error e => ⟨.error e, st, true⟩
  | .ok r =>
    if st.advancedMode || advanced then ⟨.ok r.asRaw, st, true⟩
    else ⟨.ok (response_handler r), st, true⟩

/-- `AsyncAtlasRestAPI.delete` (lines 388-410): same post-transport logic. -/
def delete (st : ClientState) (path : String) (params : Option (List (String × String)))
    (advanced : Bool) (resp : HResponse) : OpOut :=
  match requestOutcome st advanced resp with
  | .error e => ⟨.error e, st, true⟩
  | .ok r =>
    if st.advancedMode || advanced then ⟨.ok r.asRaw, st, true⟩
    else ⟨.ok (response_handler r), st, true⟩

end AsyncAtlasRestAPI

/-! ## Helper lemmas -/

theorem cacheFind_store (c : Cache) (k : CacheKey) (v : JVal) (t : ℚ) :
    cacheFind (cacheStore c k v t) k = some (v, t) := by
  simp [cacheStore, cacheFind]

theorem cacheLookup_store (c : Cache) (k : CacheKey) (v : JVal) (t now expiry : ℚ) :
    cacheLookup (cacheStore c k v t) k now expiry =
      if now - t < expiry then some v else none := by
  simp [cacheLookup, cacheFind_store]

/-- A valid stored entry is returned without touching the network. -/
theorem get_hit (st : ClientState) (a : GetArgs) (now : ℚ) (resp : HResponse) (v : JVal)
    (hu : a.use_cache = true)
    (hl : cacheLookup st.cache (cacheKeyOf a.path a.params) now st.cacheExpiry = some v) :
    AsyncAtlasRestAPI.get st a now resp = ⟨.ok (.json v), st, false⟩ := by
  simp [AsyncAtlasRestAPI.get, hu, hl]

/-- On a miss with a parseable JSON body in plain mode, the parsed value is
returned and (with `use_cache`) stored. -/
theorem get_miss_json (st : ClientState) (a : GetArgs) (now : ℚ) (resp : HResponse) (j : JVal)
    (hadv : st.advancedMode = false) (hga : a.advanced_mode = false)
    (hnj : a.not_json_response = false)
    (hmiss : (if a.use_cache then
        cacheLookup st.cache (cacheKeyOf a.path a.params) now st.cacheExpiry else none) = none)
    (hok : raise_for_status st.url resp = .ok ())
    (htext : resp.text ≠ "") (hjson : resp.jsonBody = some j) :
    AsyncAtlasRestAPI.get st a now resp =
      ⟨.ok (.json j),
        if a.use_cache then
          { st with cache := cacheStore st.cache (cacheKeyOf a.path a.params) j now }
        else st,
        true⟩ := by
  simp [AsyncAtlasRestAPI.get, hmiss, requestOutcome, hadv, hga, hnj, hok, htext, hjson]

/-! ## Claim theorems -/

/-- C1: the claim says every cache access of the client — the
read-check-then-write inside a cached GET and the clear at close — runs
under the single cache mutex.  In the source only close()'s clear is inside
an `async with self.cache_lock` block; get()'s read check (lines 272-276)
and write (line 302) are not guarded at all, so the evaluation of the lock
discipline refutes the guarded-everywhere property the spec states. -/
theorem C1_cache_accesses_unguarded :
    (getCacheAccesses.all fun s => s.underLock) = false ∧
    (closeCacheAccesses.all fun s => s.underLock) = true := by
  decide

/-- C2 counterexample: a limiter built with capacity 1 and interval 1
(both positive), after two back-to-back `get_token` calls with no elapsed
time, holds -1 tokens: the claimed invariant `0 ≤ tokens` fails at the
observation point after the second (suspending) call. -/
theorem C2_counterexample :
    ¬ 0 ≤ (((RateLimiter.make 1 1).get_token 0).1.get_token 0).1.tokens := by
  norm_num [RateLimiter.make, RateLimiter.get_token]

/-- C2 amended: for every limiter with positive capacity and interval, a
`get_token` call always leaves `tokens ≤ capacity`, and a call that did not
suspend (returned sleep time 0) also leaves `0 ≤ tokens`; the lower bound
fails only after suspending calls, which debit unconditionally. -/
theorem C2_tokens_bounds (rl : RateLimiter) (elapsed : ℚ)
    (hc : 0 < rl.capacity) (hi : 0 < rl.interval) :
    (rl.get_token elapsed).1.tokens ≤ rl.capacity ∧
    ((rl.get_token elapsed).2 = 0 → 0 ≤ (rl.get_token elapsed).1.tokens) := by
  unfold RateLimiter.get_token
  set t := min (rl.tokens + elapsed * (rl.capacity / rl.interval)) rl.capacity with ht
  have htc : t ≤ rl.capacity := min_le_right _ _
  by_cases h : t < 1
  · rw [if_pos h]
    refine ⟨by simpa using by linarith, ?_⟩
    intro h0
    simp only at h0
    have h1 : 0 < 1 - t := by linarith
    have h2 : 0 < rl.interval / rl.capacity := div_pos hi hc
    nlinarith
  · rw [if_neg h]
    have h1 : 1 ≤ t := not_lt.mp h
    exact ⟨by simpa using by linarith, fun _ => by simpa using by linarith⟩

/-- C2 witness: the bounds instantiated at a concrete limiter. -/
theorem C2_tokens_bounds_witness :
    ((RateLimiter.make 2 1).get_token 0).1.tokens ≤ (RateLimiter.make 2 1).capacity ∧
    (((RateLimiter.make 2 1).get_token 0).2 = 0 →
      0 ≤ ((RateLimiter.make 2 1).get_token 0).1.tokens) :=
  C2_tokens_bounds (RateLimiter.make 2 1) 0 (by norm_num [RateLimiter.make])
    (by norm_num [RateLimiter.make])

/-- C8: storing a value under a key and reading it back before the expiry
window elapses returns that value, whatever was stored before (the store
overwrites unconditionally); once at least the expiry window has elapsed
the read misses — validity is the strict comparison `age < expiry`. -/
theorem C8_cache_roundtrip (c : Cache) (k : CacheKey) (v : JVal) (t now expiry : ℚ) :
    (now - t < expiry → cacheLookup (cacheStore c k v t) k now expiry = some v) ∧
    (expiry ≤ now - t → cacheLookup (cacheStore c k v t) k now expiry = none) := by
  refine ⟨fun h => ?_, fun h => ?_⟩
  · rw [cacheLookup_store, if_pos h]
  · rw [cacheLookup_store, if_neg (not_lt.mpr h)]

/-- C8 witness: a concrete store/read round trip, fresh and expired. -/
theorem C8_cache_roundtrip_witness :
    cacheLookup (cacheStore [(( "/x", none), (JVal.str "old", 0))] ("/x", none)
        (JVal.str "v") 0) ("/x", none) 1 300 = some (JVal.str "v") ∧
    cacheLookup (cacheStore [] ("/x", none) (JVal.str "v") 0) ("/x", none) 300 300 = none :=
  ⟨(C8_cache_roundtrip [(( "/x", none), (JVal.str "old", 0))] ("/x", none)
      (JVal.str "v") 0 1 300).1 (by norm_num),
   (C8_cache_roundtrip [] ("/x", none) (JVal.str "v") 0 300 300).2 (by norm_num)⟩

/-- The outcome of the status check does not depend on the cache content. -/
theorem requestOutcome_cache_irrel (st : ClientState) (c : Cache) (adv : Bool) (r : HResponse) :
    requestOutcome { st with cache := c } adv r = requestOutcome st adv r := rfl

/-- C9: post, put, patch and delete neither write the GET cache (the state
they return carries the cache unchanged, and they always go to the network)
nor read it (their result is the same whatever the cache holds, including a
valid entry for the same path/params pair). -/
theorem C9_verbs_cache_frame (st : ClientState) (path : String)
    (params : Option (List (String × String))) (adv : Bool) (resp : HResponse) :
    ((AsyncAtlasRestAPI.post st path params adv resp).state.cache = st.cache ∧
      (AsyncAtlasRestAPI.post st path params adv resp).networkUsed = true ∧
      ∀ c : Cache, (AsyncAtlasRestAPI.post (st.withCache c) path params adv resp).result =
        (AsyncAtlasRestAPI.post st path params adv resp).result) ∧
    ((AsyncAtlasRestAPI.put st path params adv resp).state.cache = st.cache ∧
      (AsyncAtlasRestAPI.put st path params adv resp).networkUsed = true ∧
      ∀ c : Cache, (AsyncAtlasRestAPI.put (st.withCache c) path params adv resp).result =
        (AsyncAtlasRestAPI.put st path params adv resp).result) ∧
    ((AsyncAtlasRestAPI.patch st path params adv resp).state.cache = st.cache ∧
      (AsyncAtlasRestAPI.patch st path params adv resp).networkUsed = true ∧
      ∀ c : Cache, (AsyncAtlasRestAPI.patch (st.withCache c) path params adv resp).result =
        (AsyncAtlasRestAPI.patch st path params adv resp).result) ∧
    ((AsyncAtlasRestAPI.delete st path params adv resp).state.cache = st.cache ∧
      (AsyncAtlasRestAPI.delete st path params adv resp).networkUsed = true ∧
      ∀ c : Cache, (AsyncAtlasRestAPI.delete (st.withCache c) path params adv resp).result =
        (AsyncAtlasRestAPI.delete st path params adv resp).result) := by
  refine ⟨⟨?_, ?_, fun c => ?_⟩, ⟨?_, ?_, fun c => ?_⟩, ⟨?_, ?_, fun c => ?_⟩,
    ⟨?_, ?_, fun c => ?_⟩⟩ <;>
  · simp only [AsyncAtlasRestAPI.post, AsyncAtlasRestAPI.put, AsyncAtlasRestAPI.patch,
      AsyncAtlasRestAPI.delete, ClientState.withCache, requestOutcome_cache_irrel]
    cases hE : requestOutcome st adv resp <;>
      simp [hE, apply_ite] <;>
      split <;> intros <;> simp_all

/-- A client holding a fresh cached value for path `/x` with no params. -/
def st3 : ClientState :=
  ⟨"https://example.com", false, 300, [(("/x", none), (JVal.str "cached", 0))]⟩

/-- The response the wire would return for the advanced-mode call. -/
def resp3 : HResponse := ⟨200, none, "fresh", some (JVal.str "fresh"), "fresh"⟩

/-- The advanced-mode GET call: per-call override, default `use_cache`. -/
def args3 : GetArgs := ⟨"/x", none, none, none, none, false, false, false, true, true⟩

/-- C3 counterexample: a GET with the per-call advanced-mode override on a
client holding a valid cached entry for the key returns the previously
cached value — not the raw transport response — because the cache check at
lines 272-276 precedes the advanced-mode check at line 290.  The cache is
therefore not bypassed on the read side in raw mode. -/
theorem C3_counterexample :
    AsyncAtlasRestAPI.get st3 args3 1 resp3 =
      ⟨.ok (.json (JVal.str "cached")), st3, false⟩ ∧
    RValue.json (JVal.str "cached") ≠ resp3.asRaw := by
  constructor
  · have hl : cacheLookup st3.cache (cacheKeyOf args3.path args3.params) 1 st3.cacheExpiry
        = some (JVal.str "cached") := by
      norm_num [cacheLookup, cacheFind, st3, args3, cacheKeyOf]
    exact get_hit st3 args3 1 resp3 (JVal.str "cached") rfl hl
  · intro h
    exact RValue.noConfusion h

/-- C3 amended: in advanced mode (client default or per-call override),
when the cache yields no valid hit for the key — `use_cache` is false, the
key is absent, or the entry has expired — the raw transport response is
returned untouched with no status-code interpretation, and no cache entry
is stored; but the cache read is not bypassed: a valid entry with
`use_cache` set is returned instead of the raw response. -/
theorem C3_advanced_mode_raw (st : ClientState) (a : GetArgs) (now : ℚ) (resp : HResponse)
    (hadv : (st.advancedMode || a.advanced_mode) = true)
    (hmiss : (if a.use_cache then
        cacheLookup st.cache (cacheKeyOf a.path a.params) now st.cacheExpiry else none) = none) :
    AsyncAtlasRestAPI.get st a now resp = ⟨.ok resp.asRaw, st, true⟩ := by
  simp [AsyncAtlasRestAPI.get, hmiss, requestOutcome, hadv]

/-- C3 witness: a concrete advanced-mode GET on an empty cache returns the
raw response (here a 500, uninterpreted) and stores nothing. -/
theorem C3_advanced_mode_raw_witness :
    AsyncAtlasRestAPI.get (ClientState.make "https://example.com" false)
      ⟨"/x", none, none, none, none, false, false, false, true, true⟩ 0
      ⟨500, none, "err", none, "err"⟩ =
      ⟨.ok (HResponse.asRaw ⟨500, none, "err", none, "err"⟩),
        ClientState.make "https://example.com" false, true⟩ :=
  C3_advanced_mode_raw (ClientState.make "https://example.com" false)
    ⟨"/x", none, none, none, none, false, false, false, true, true⟩ 0
    ⟨500, none, "err", none, "err"⟩ rfl rfl

/-- C4: in non-advanced mode a 401 response whose Content-Type is not
`application/json;charset=UTF-8` raises the authentication failure
`HTTPError("Unauthorized (401)")`, while a 401 carrying exactly that
Content-Type falls through to the generic application-error handling that
extracts a message from the JSON body. -/
theorem C4_unauthorized_classification (st : ClientState) (r : HResponse)
    (hadv : st.advancedMode = false) (h401 : r.status = 401) :
    (r.contentType ≠ some "application/json;charset=UTF-8" →
      requestOutcome st false r = .error (.httpError "Unauthorized (401)")) ∧
    (r.contentType = some "application/json;charset=UTF-8" →
      requestOutcome st false r = .error (application_error st.url r)) := by
  constructor <;> intro hct <;>
    simp [requestOutcome, hadv, raise_for_status, h401, hct]

/-- C4 witness: a 401 with no Content-Type header raises the
authentication failure. -/
theorem C4_unauthorized_classification_witness :
    requestOutcome (ClientState.make "https://example.com" false) false
      ⟨401, none, "", none, ""⟩ = .error (.httpError "Unauthorized (401)") :=
  (C4_unauthorized_classification (ClientState.make "https://example.com" false)
    ⟨401, none, "", none, ""⟩ rfl rfl).1 (by simp)

/-- The JSON body of claim C5's scenario. -/
def c5Body : JVal :=
  .obj [("errorMessages", .arr [.str "bad thing"]),
        ("errors", .obj [("message", .str "detail")])]

/-- C5: for a client whose base URL is not the token-issuing host, a 500
response with body `{"errorMessages": ["bad thing"], "errors": {"message":
"detail"}}` raises an application error whose message is exactly
"bad thing\ndetail": the errorMessages list joined with the errors dict's
message by a newline. -/
theorem C5_error_message_extraction (url : String) (r : HResponse)
    (hurl : url ≠ "https://api.atlassian.com") (hs : r.status = 500)
    (hb : r.jsonBody = some c5Body) :
    raise_for_status url r = .error (.httpError "bad thing\ndetail") := by
  simp [raise_for_status, hs, application_error, hb, hurl, c5Body, generalErrorMsg,
    dictGet, pyJoin, strListOf]
  rfl

/-- C5 witness: the extraction at a concrete non-token-issuing host. -/
theorem C5_error_message_extraction_witness :
    raise_for_status "https://example.com" ⟨500, none, "{}", some c5Body, "{}"⟩ =
      .error (.httpError "bad thing\ndetail") :=
  C5_error_message_extraction "https://example.com" ⟨500, none, "{}", some c5Body, "{}"⟩
    (by simp) rfl rfl

/-- A plain-mode client with an empty cache. -/
def st6 : ClientState := ClientState.make "https://example.com" false

/-- A successful response whose non-empty body is not valid JSON. -/
def resp6 : HResponse := ⟨200, none, "not json", none, "not json"⟩

/-- C6 counterexample: a POST whose successful response has a non-empty,
non-JSON body returns None (the shared `_response_handler` swallows the
parse failure), not the raw response text as the claim states for every
verb operation. -/
theorem C6_counterexample :
    (AsyncAtlasRestAPI.post st6 "/x" none false resp6).result = .ok RValue.null ∧
    RValue.null ≠ RValue.text "not json" := by
  constructor
  · rfl
  · intro h
    exact RValue.noConfusion h

/-- C6 amended: on the successful non-advanced JSON path, a GET returns
None for an empty body (raising nothing and caching nothing), the parsed
value for a valid JSON body, and the raw text for a non-empty non-JSON
body; post/put/patch/delete also return the parsed value for valid JSON,
but on any parse failure — empty or non-JSON body alike — they return None,
never the raw text. -/
theorem C6_response_parsing (st : ClientState) (a : GetArgs) (now : ℚ) (resp : HResponse)
    (p : String) (prm : Option (List (String × String)))
    (hadv : st.advancedMode = false) (hga : a.advanced_mode = false)
    (hnj : a.not_json_response = false)
    (hmiss : (if a.use_cache then
        cacheLookup st.cache (cacheKeyOf a.path a.params) now st.cacheExpiry else none) = none)
    (hok : raise_for_status st.url resp = .ok ()) :
    (resp.text = "" → AsyncAtlasRestAPI.get st a now resp = ⟨.ok .null, st, true⟩) ∧
    (∀ j, resp.jsonBody = some j → resp.text ≠ "" →
      (AsyncAtlasRestAPI.get st a now resp).result = .ok (.json j)) ∧
    (resp.jsonBody = none → resp.text ≠ "" →
      AsyncAtlasRestAPI.get st a now resp = ⟨.ok (.text resp.text), st, true⟩) ∧
    (∀ j, resp.jsonBody = some j →
      AsyncAtlasRestAPI.post st p prm false resp = ⟨.ok (.json j), st, true⟩ ∧
      AsyncAtlasRestAPI.put st p prm false resp = ⟨.ok (.json j), st, true⟩ ∧
      AsyncAtlasRestAPI.patch st p prm false resp = ⟨.ok (.json j), st, true⟩ ∧
      AsyncAtlasRestAPI.delete st p prm false resp = ⟨.ok (.json j), st, true⟩) ∧
    (resp.jsonBody = none →
      AsyncAtlasRestAPI.post st p prm false resp = ⟨.ok .null, st, true⟩ ∧
      AsyncAtlasRestAPI.put st p prm false resp = ⟨.ok .null, st, true⟩ ∧
      AsyncAtlasRestAPI.patch st p prm false resp = ⟨.ok .null, st, true⟩ ∧
      AsyncAtlasRestAPI.delete st p prm false resp = ⟨.ok .null, st, true⟩) := by
  refine ⟨fun hempty => ?_, fun j hj ht => ?_, fun hnone ht => ?_,
    fun j hj => ⟨?_, ?_, ?_, ?_⟩, fun hnone => ⟨?_, ?_, ?_, ?_⟩⟩
  · simp [AsyncAtlasRestAPI.get, hmiss, requestOutcome, hadv, hga, hnj, hok, hempty]
  · rw [get_miss_json st a now resp j hadv hga hnj hmiss hok ht hj]
  · simp [AsyncAtlasRestAPI.get, hmiss, requestOutcome, hadv, hga, hnj, hok, ht, hnone]
  all_goals
    simp_all [AsyncAtlasRestAPI.post, AsyncAtlasRestAPI.put, AsyncAtlasRestAPI.patch,
      AsyncAtlasRestAPI.delete, AsyncAtlasRestAPI.response_handler,
      requestOutcome, hadv, hok]

/-- C6 witness: a GET whose response body is empty returns None, leaves
the client state (hence the cache) unchanged, and raises nothing. -/
theorem C6_response_parsing_witness :
    AsyncAtlasRestAPI.get st6 ⟨"/e", none, none, none, none, false, false, false, false, true⟩
      0 ⟨200, none, "", none, ""⟩ = ⟨.ok .null, st6, true⟩ :=
  (C6_response_parsing st6 ⟨"/e", none, none, none, none, false, false, false, false, true⟩
    0 ⟨200, none, "", none, ""⟩ "/e" none rfl rfl rfl rfl rfl).1 rfl

/-- C7: the cache key is invariant under reordering of the params pairs
(the frozenset forgets insertion order), so a value retrievable under the
key built from one ordering is returned as a cache hit — with no network
call — by a GET whose params list is any permutation of it. -/
theorem C7_cache_key_perm (p : String) (l1 l2 : List (String × String))
    (hperm : l1.Perm l2) :
    cacheKeyOf p (some l1) = cacheKeyOf p (some l2) ∧
    ∀ (st : ClientState) (a : GetArgs) (now : ℚ) (resp : HResponse) (v : JVal),
      a.path = p → a.params = some l2 → a.use_cache = true →
      cacheLookup st.cache (cacheKeyOf p (some l1)) now st.cacheExpiry = some v →
      AsyncAtlasRestAPI.get st a now resp = ⟨.ok (.json v), st, false⟩ := by
  have hfin : l1.toFinset = l2.toFinset := by
    ext x
    simp [List.mem_toFinset, hperm.mem_iff]
  have hnil : (l1 = []) ↔ (l2 = []) := by
    rw [← List.length_eq_zero, ← List.length_eq_zero, hperm.length_eq]
  have hkey : cacheKeyOf p (some l1) = cacheKeyOf p (some l2) := by
    unfold cacheKeyOf
    dsimp only
    by_cases h : l1 = []
    · rw [if_pos h, if_pos (hnil.mp h)]
    · rw [if_neg h, if_neg (fun hh => h (hnil.mpr hh)), hfin]
  refine ⟨hkey, ?_⟩
  intro st a now resp v hp hprm hu hl
  exact get_hit st a now resp v hu (by rw [hp, hprm, ← hkey]; exact hl)

/-- C7 witness: a value stored under params [a=1, b=2] is a cache hit for
a GET issued with params [b=2, a=1]. -/
theorem C7_cache_key_perm_witness :
    AsyncAtlasRestAPI.get
      ⟨"https://example.com", false, 300,
        [((cacheKeyOf "/x" (some [("a", "1"), ("b", "2")])), (JVal.str "v", 0))]⟩
      ⟨"/x", none, none, some [("b", "2"), ("a", "1")], none, false, false, false, false, true⟩
      1 ⟨500, none, "", none, ""⟩ =
      ⟨.ok (.json (JVal.str "v")),
        ⟨"https://example.com", false, 300,
          [((cacheKeyOf "/x" (some [("a", "1"), ("b", "2")])), (JVal.str "v", 0))]⟩,
        false⟩ :=
  (C7_cache_key_perm "/x" [("a", "1"), ("b", "2")] [("b", "2"), ("a", "1")]
    (List.Perm.swap ("b", "2") ("a", "1") [])).2
    ⟨"https://example.com", false, 300,
      [((cacheKeyOf "/x" (some [("a", "1"), ("b", "2")])), (JVal.str "v", 0))]⟩
    ⟨"/x", none, none, some [("b", "2"), ("a", "1")], none, false, false, false, false, true⟩
    1 ⟨500, none, "", none, ""⟩ (JVal.str "v") rfl rfl rfl
    (by norm_num [cacheLookup, cacheFind])

/-- C10: the cache key reads only the path and the named params.  After a
caching GET, a second GET with the same path and params but arbitrary —
possibly different — data, flags, headers, trailing, absolute and
not_json_response arguments (so a different wire request) is answered from
the first call's cached payload with no network use. -/
theorem C10_cache_key_ignores_extras (st : ClientState) (a1 a2 : GetArgs)
    (now1 now2 : ℚ) (resp1 resp2 : HResponse) (j : JVal)
    (hpath : a2.path = a1.path) (hparams : a2.params = a1.params)
    (hu1 : a1.use_cache = true) (hu2 : a2.use_cache = true)
    (hadv : st.advancedMode = false) (ha1 : a1.advanced_mode = false)
    (hnj1 : a1.not_json_response = false)
    (hmiss : cacheLookup st.cache (cacheKeyOf a1.path a1.params) now1 st.cacheExpiry = none)
    (hok : raise_for_status st.url resp1 = .ok ())
    (htext : resp1.text ≠ "") (hjson : resp1.jsonBody = some j)
    (hfresh : now2 - now1 < st.cacheExpiry) :
    (AsyncAtlasRestAPI.get st a1 now1 resp1).result = .ok (.json j) ∧
    AsyncAtlasRestAPI.get (AsyncAtlasRestAPI.get st a1 now1 resp1).state a2 now2 resp2 =
      ⟨.ok (.json j), (AsyncAtlasRestAPI.get st a1 now1 resp1).state, false⟩ := by
  have h1 : AsyncAtlasRestAPI.get st a1 now1 resp1 =
      ⟨.ok (.json j),
        { st with cache := cacheStore st.cache (cacheKeyOf a1.path a1.params) j now1 },
        true⟩ := by
    rw [get_miss_json st a1 now1 resp1 j hadv ha1 hnj1 (by simp [hu1, hmiss]) hok htext hjson]
    simp [hu1]
  constructor
  · rw [h1]
  · rw [h1]
    refine get_hit _ a2 now2 resp2 j hu2 ?_
    show cacheLookup (cacheStore st.cache (cacheKeyOf a1.path a1.params) j now1)
      (cacheKeyOf a2.path a2.params) now2 st.cacheExpiry = some j
    rw [hpath, hparams, cacheLookup_store, if_pos hfresh]

/-- C10 witness: the second GET differs from the first in data, flags,
headers, trailing, absolute and not_json_response, yet is served the first
call's cached payload without touching the network. -/
theorem C10_cache_key_ignores_extras_witness :
    (AsyncAtlasRestAPI.get (ClientState.make "https://example.com" false)
      ⟨"/x", none, none, some [("a", "1")], none, false, false, false, false, true⟩
      0 ⟨200, none, "1", some (JVal.num 1), "1"⟩).result = .ok (.json (JVal.num 1)) ∧
    AsyncAtlasRestAPI.get
      (AsyncAtlasRestAPI.get (ClientState.make "https://example.com" false)
        ⟨"/x", none, none, some [("a", "1")], none, false, false, false, false, true⟩
        0 ⟨200, none, "1", some (JVal.num 1), "1"⟩).state
      ⟨"/x", some (JVal.str "d"), some ["verbose"], some [("a", "1")], some [("H", "1")],
        true, true, true, false, true⟩
      1 ⟨503, none, "boom", none, "boom"⟩ =
      ⟨.ok (.json (JVal.num 1)),
        (AsyncAtlasRestAPI.get (ClientState.make "https://example.com" false)
          ⟨"/x", none, none, some [("a", "1")], none, false, false, false, false, true⟩
          0 ⟨200, none, "1", some (JVal.num 1), "1"⟩).state,
        false⟩ :=
  C10_cache_key_ignores_extras (ClientState.make "https://example.com" false)
    ⟨"/x", none, none, some [("a", "1")], none, false, false, false, false, true⟩
    ⟨"/x", some (JVal.str "d"), some ["verbose"], some [("a", "1")], some [("H", "1")],
      true, true, true, false, true⟩
    0 1 ⟨200, none, "1", some (JVal.num 1), "1"⟩ ⟨503, none, "boom", none, "boom"⟩
    (JVal.num 1) rfl rfl rfl rfl rfl rfl rfl rfl rfl (by decide) rfl
    (by norm_num [ClientState.make])
